/-
Verification of the RunPodPy client (`src/runpodpy`) against its
natural-language specification.

The Python sources are shallowly embedded as Lean definitions:

* pure helpers (`GPUTypeId.from_gpuDisplayName`, `config_builder`'s nesting
  loop) become Lean functions over `String` / association trees;
* each remote GraphQL round-trip is abstracted by a `QueryOutcome` value:
  either a successful (already JSON-decoded) response payload, a
  `TransportQueryError` carrying its list of GraphQL errors, or a
  `TransportServerError`; each client method is then a function from the
  outcome of its round-trip to the value it returns or the exception it
  raises (`Except PyExn`);
* Python's dynamic typing of the `gpuDisplayName` slot (annotated
  `GPUTypeId`, but assigned `None` on a parse failure) is embedded by the
  sum type `GpuSlot`;
* the unbounded polling loop of `create_instance` is embedded with an
  explicit fuel parameter: `CreateRun.outOfFuel` for every fuel value is
  the embedding of an execution that never returns.
-/
import Mathlib

namespace RunPodPy

/-! ## Domain model (`runpodpy/__init__.py`) -/

/-- `CloudType(Enum)`: COMMUNITY | SECURE. -/
inductive CloudType where
  | COMMUNITY
  | SECURE
deriving DecidableEq, Repr

/-- `CloudType.value`. -/
def CloudType.value : CloudType → String
  | .COMMUNITY => "COMMUNITY"
  | .SECURE => "SECURE"

/-- `GPUTypeId(Enum)`: the closed enumeration of GPU SKUs. -/
inductive GPUTypeId where
  | RTX_A4000
  | RTX_A4500
  | RTX_A5000
  | RTX_A6000
  | A100_80GB
  | A40
  | RTX_3070
  | RTX_3080
  | RTX_3080_TI
  | RTX_3090
  | V100_FHHL
  | V100_SXM2
  | TESLA_V100
deriving DecidableEq, Repr

/-- The `value` of each `GPUTypeId` member (the string after `=` in the
Python enum; also what `str()` returns). -/
def GPUTypeId.value : GPUTypeId → String
  | .RTX_A4000 => "NVIDIA RTX A4000"
  | .RTX_A4500 => "NVIDIA RTX A4500"
  | .RTX_A5000 => "NVIDIA RTX A5000"
  | .RTX_A6000 => "NVIDIA RTX A6000"
  | .A100_80GB => "NVIDIA A100 80GB PCIe"
  | .A40 => "NVIDIA A40"
  | .RTX_3070 => "NVIDIA GeForce RTX 3070"
  | .RTX_3080 => "NVIDIA GeForce RTX 3080"
  | .RTX_3080_TI => "NVIDIA GeForce RTX 3080 Ti"
  | .RTX_3090 => "NVIDIA GeForce RTX 3090"
  | .V100_FHHL => "Tesla V100-FHHL-16GB"
  | .V100_SXM2 => "Tesla V100-SXM2-16GB"
  | .TESLA_V100 => "Tesla V100-PCIE-16GB"

/-- The Python *name* of each `GPUTypeId` member (what `getattr` looks up). -/
def GPUTypeId.memberName : GPUTypeId → String
  | .RTX_A4000 => "RTX_A4000"
  | .RTX_A4500 => "RTX_A4500"
  | .RTX_A5000 => "RTX_A5000"
  | .RTX_A6000 => "RTX_A6000"
  | .A100_80GB => "A100_80GB"
  | .A40 => "A40"
  | .RTX_3070 => "RTX_3070"
  | .RTX_3080 => "RTX_3080"
  | .RTX_3080_TI => "RTX_3080_TI"
  | .RTX_3090 => "RTX_3090"
  | .V100_FHHL => "V100_FHHL"
  | .V100_SXM2 => "V100_SXM2"
  | .TESLA_V100 => "TESLA_V100"

/-- All members of the enumeration, in declaration order. -/
def GPUTypeId.allMembers : List GPUTypeId :=
  [.RTX_A4000, .RTX_A4500, .RTX_A5000, .RTX_A6000, .A100_80GB, .A40,
   .RTX_3070, .RTX_3080, .RTX_3080_TI, .RTX_3090, .V100_FHHL, .V100_SXM2,
   .TESLA_V100]

/-- `s.replace(" ", "_").upper()` — the normalisation performed by
`GPUTypeId.from_gpuDisplayName` on its argument.  Replacing the
single-character pattern `" "` by `"_"` and upper-casing both act
characterwise, so the composition is embedded as one characterwise map. -/
def pyNormalizeGpuName (s : String) : String :=
  ⟨s.data.map (fun c => Char.toUpper (if c = ' ' then '_' else c))⟩

/-- `GPUTypeId.from_gpuDisplayName(s)`: normalises `s` and then looks the
result up *as a member name* via `getattr(GPUTypeId, s_, None)`.
`none` embeds the `raise ValueError(...)` branch. -/
def GPUTypeId.from_gpuDisplayName (s : String) : Option GPUTypeId :=
  let s_ := pyNormalizeGpuName s
  GPUTypeId.allMembers.find? (fun t => t.memberName == s_)

/-- `PodStatus(Enum)`: RUNNING | EXITED. -/
inductive PodStatus where
  | RUNNING
  | EXITED
deriving DecidableEq, Repr

/-- `PodStatus[s]` (lookup by member name, as done on API response fields);
`none` embeds the `KeyError` raised for any other string. -/
def PodStatus.fromName (s : String) : Option PodStatus :=
  if s = "RUNNING" then some .RUNNING
  else if s = "EXITED" then some .EXITED
  else none

/-! ## Python-side primitives -/

/-- `charsContain sub l`: `sub` occurs as a contiguous run inside `l`. -/
def charsContain (sub : List Char) : List Char → Bool
  | [] => sub.isEmpty
  | x :: xs => sub.isPrefixOf (x :: xs) || charsContain sub xs

/-- Python `sub in s` (substring containment). -/
def pyIn (sub s : String) : Bool :=
  charsContain sub.data s.data

/-- Python truthiness of an optional boolean (`None` is falsy). -/
def pyTruthy : Option Bool → Bool
  | none => false
  | some b => b

/-- Exceptions raised by the embedded client code. -/
inductive PyExn where
  /-- `OutbidException(msg)` -/
  | outbid (msg : String)
  /-- `RunPodException(msg)` -/
  | runPod (msg : String)
  /-- a `KeyError` (e.g. `PodStatus[s]` on an unknown status string) -/
  | keyError
  /-- an `IndexError` (e.g. `e.errors[0]` on an empty error list) -/
  | indexError
  /-- an `AttributeError` (e.g. `e.errors` on a `TransportServerError`) -/
  | attrError
deriving DecidableEq, Repr

/-- One entry of a `TransportQueryError`'s `errors` list: its `message`
and its `extensions.code`. -/
structure GqlError where
  message : String
  extensionsCode : String
deriving DecidableEq, Repr

/-- Outcome of one GraphQL round-trip, as seen by the `except` clauses:
either the decoded response payload, a `TransportQueryError` carrying the
remote error list, or a `TransportServerError`. -/
inductive QueryOutcome (α : Type) where
  | success (data : α)
  | queryError (errs : List GqlError)
  | serverError

/-! ## `RunPodInstance` (`runpodpy/runpod.py`) -/

/-- The value held by the (dynamically typed) `gpuDisplayName` attribute of
a `RunPodInstance`: the annotation says `GPUTypeId`, but the code also
assigns Python `None`; a string is representable as well. -/
inductive GpuSlot where
  | typeId (t : GPUTypeId)
  | pyNone
  | pyStr (s : String)
deriving DecidableEq, Repr

/-- `RunPodInstance`: the local snapshot of one remote pod.  Numeric prices
are kept in their raw response form (a string for a JSON number, `none` for
an absent field); no claim depends on float arithmetic. -/
structure RunPodInstance where
  podName : String
  cost : Option String
  podId : String
  podHostId : String
  spot : Bool
  gpuDisplayName : GpuSlot
  gpuCount : Int
  vcpuCount : Int
  memoryInGb : Int
  cloudType : CloudType
  imageName : String
  desiredStatus : PodStatus
deriving DecidableEq, Repr

/-! ## Response payloads -/

/-- The `machine` sub-object of a pod response. -/
structure MachineData where
  podHostId : String
  gpuDisplayName : String
  secureCloud : Bool
deriving DecidableEq, Repr

/-- The `pod` object returned by the `myPods` / pod-by-id queries. -/
structure PodData where
  id : String
  name : String
  podType : String
  costPerHr : Option String
  gpuCount : Int
  vcpuCount : Int
  memoryInGb : Int
  imageName : String
  desiredStatus : String
  machine : MachineData
deriving DecidableEq, Repr

/-- The field-extraction block shared by `get_pod_by_id` and `get_pods`:
builds a `RunPodInstance` from one response pod object.  The
`try/except ValueError` around `GPUTypeId.from_gpuDisplayName` becomes the
match that falls back to `GpuSlot.pyNone`; `none` as overall result embeds
the uncaught `KeyError` of `PodStatus[pod_data["desiredStatus"]]`. -/
def parsePodData (d : PodData) : Option RunPodInstance :=
  match PodStatus.fromName d.desiredStatus with
  | none => none
  | some st =>
    some {
      podName := d.name
      cost := d.costPerHr
      podId := d.id
      podHostId := d.machine.podHostId
      spot := d.podType == "INTERRUPTABLE"
      gpuDisplayName :=
        match GPUTypeId.from_gpuDisplayName d.machine.gpuDisplayName with
        | some t => .typeId t
        | none => .pyNone
      gpuCount := d.gpuCount
      vcpuCount := d.vcpuCount
      memoryInGb := d.memoryInGb
      cloudType := if d.machine.secureCloud then .SECURE else .COMMUNITY
      imageName := d.imageName
      desiredStatus := st }

/-! ## `RunPod.get_pod_by_id` -/

/-- What a call to `get_pod_by_id` does: return a pod, return `None`
(the not-found sentinel), or raise. -/
inductive GetPodResult where
  | found (pod : RunPodInstance)
  | notFound
  | raised (e : PyExn)
deriving DecidableEq, Repr

/-- `RunPod.get_pod_by_id(podId)` as a function of the round-trip outcome.
A `TransportQueryError` whose first error has `extensions.code ==
"INTERNAL_SERVER_ERROR"` returns `None`; any other `TransportQueryError`
and every `TransportServerError` raises `RunPodException`. -/
def get_pod_by_id (podId : String) (out : QueryOutcome PodData) : GetPodResult :=
  match out with
  | .success d =>
    match parsePodData d with
    | some pod => .found pod
    | none => .raised .keyError
  | .queryError errs =>
    match errs with
    | e :: _ =>
      if e.extensionsCode == "INTERNAL_SERVER_ERROR" then .notFound
      else .raised (.runPod ("Failed to get pod " ++ podId))
    | [] => .raised (.runPod ("Failed to get pod " ++ podId))
  | .serverError => .raised (.runPod ("Failed to get pod " ++ podId))

/-! ## `RunPod.get_pods` -/

/-- The per-pod loop body of `get_pods`, over the whole listing: `none`
embeds an uncaught `KeyError` aborting the listing. -/
def buildPods : List PodData → Option (List RunPodInstance)
  | [] => some []
  | d :: ds =>
    match parsePodData d, buildPods ds with
    | some p, some ps => some (p :: ps)
    | _, _ => none

/-- What a call to `get_pods` does. -/
inductive GetPodsResult where
  | ok (pods : List RunPodInstance)
  | raised (e : PyExn)
deriving DecidableEq, Repr

/-- `RunPod.get_pods()` as a function of the round-trip outcome; any
transport or query error raises `RunPodException`. -/
def get_pods (out : QueryOutcome (List PodData)) : GetPodsResult :=
  match out with
  | .success ds =>
    match buildPods ds with
    | some ps => .ok ps
    | none => .raised .keyError
  | .queryError _ => .raised (.runPod "Failed to get pods")
  | .serverError => .raised (.runPod "Failed to get pods")

/-! ## `RunPod.stop_instance` / `RunPod.destroy_instance` -/

/-- The `podStop` response object. -/
structure PodStopData where
  id : String
  desiredStatus : String
deriving DecidableEq, Repr

/-- `RunPod.stop_instance(podId)`: true iff the echoed id matches and the
desired status is `"EXITED"`; false on any transport or query error. -/
def stop_instance (podId : String) (out : QueryOutcome PodStopData) : Bool :=
  match out with
  | .success d => d.id == podId && d.desiredStatus == "EXITED"
  | .queryError _ => false
  | .serverError => false

/-- The `podTerminate` response value (`none` embeds JSON `null`). -/
structure PodTerminateData where
  podTerminate : Option String
deriving DecidableEq, Repr

/-- `RunPod.destroy_instance(podId)`: true iff the `podTerminate` field of
the response is `null`; false on any transport or query error. -/
def destroy_instance (podId : String) (out : QueryOutcome PodTerminateData) : Bool :=
  match out with
  | .success d => d.podTerminate.isNone
  | .queryError _ => false
  | .serverError => false

/-! ## `RunPod.start_instance` -/

/-- The `podBidResume` / `podResume` response object. -/
structure PodResumeData where
  id : String
  desiredStatus : String
deriving DecidableEq, Repr

/-- What a call to a start operation does. -/
inductive StartResult where
  | ok (b : Bool)
  | raised (e : PyExn)
deriving DecidableEq, Repr

/-- `RunPod.__start_spot_instance`: on a `TransportQueryError` whose first
error message contains `"Cannot resume a pod that is not in exited state"`
the pod is logged as already running and the call returns `True`; an
`"outbid"` message raises `OutbidException`; anything else returns `False`
(the `elif` indexes `e.errors[0]`, so an empty error list raises
`IndexError`). -/
def start_spot_instance (podId : String) (out : QueryOutcome PodResumeData) : StartResult :=
  match out with
  | .success d => .ok (d.id == podId && d.desiredStatus == "RUNNING")
  | .queryError errs =>
    match errs with
    | e :: _ =>
      if pyIn "Cannot resume a pod that is not in exited state" e.message then .ok true
      else if pyIn "outbid" e.message then .raised (.outbid e.message)
      else .ok false
    | [] => .raised .indexError
  | .serverError => .ok false

/-- `RunPod.__start_on_demand_instance`: identical error handling to the
spot path. -/
def start_on_demand_instance (podId : String) (out : QueryOutcome PodResumeData) : StartResult :=
  match out with
  | .success d => .ok (d.id == podId && d.desiredStatus == "RUNNING")
  | .queryError errs =>
    match errs with
    | e :: _ =>
      if pyIn "Cannot resume a pod that is not in exited state" e.message then .ok true
      else if pyIn "outbid" e.message then .raised (.outbid e.message)
      else .ok false
    | [] => .raised .indexError
  | .serverError => .ok false

/-- `RunPod.start_instance(podId, ..., spot)`: dispatches to the spot or
the on-demand private method. -/
def start_instance (podId : String) (spot : Bool) (out : QueryOutcome PodResumeData) : StartResult :=
  if spot then start_spot_instance podId out else start_on_demand_instance podId out

/-! ## `RunPod.create_instance` (spot path, the default `spot=True`) -/

/-- The `podRentInterruptable` response object. -/
structure CreatePodData where
  id : String
  imageName : String
  podType : String
  costPerHr : String
  gpuCount : Int
  vcpuCount : Int
  memoryInGb : Int
  desiredStatus : String
  machinePodHostId : String
  machineGpuDisplayName : String
deriving DecidableEq, Repr

/-- The arguments of `create_instance` that flow into the constructed
`RunPodInstance`. -/
structure CreateArgs where
  podName : String
  imageName : String
  gpuTypeId : GPUTypeId
  cloudType : CloudType
deriving DecidableEq, Repr

/-- `RunPod.__create_spot_instance`: builds a `RunPodInstance` from the
mutation response; on a `TransportQueryError` whose first error message
contains `"outbid"` it raises `OutbidException`, on any other first error
it logs and returns `None`.  An empty error list raises `IndexError` at
`e.errors[0]`; a `TransportServerError` has no `errors` attribute, so that
branch raises `AttributeError`.  `PodStatus[...]` on an unknown status
raises `KeyError`. -/
def create_spot_instance (args : CreateArgs) (out : QueryOutcome CreatePodData) :
    Except PyExn (Option RunPodInstance) :=
  match out with
  | .success d =>
    match PodStatus.fromName d.desiredStatus with
    | some st =>
      .ok (some {
        podName := args.podName
        cost := some d.costPerHr
        podId := d.id
        podHostId := d.machinePodHostId
        spot := d.podType == "INTERRUPTABLE"
        gpuDisplayName := .typeId args.gpuTypeId
        gpuCount := d.gpuCount
        vcpuCount := d.vcpuCount
        memoryInGb := d.memoryInGb
        cloudType := args.cloudType
        imageName := args.imageName
        desiredStatus := st })
    | none => .error .keyError
  | .queryError errs =>
    match errs with
    | e :: _ =>
      if pyIn "outbid" e.message then .error (.outbid e.message)
      else .ok none
    | [] => .error .indexError
  | .serverError => .error .attrError

/-- The `while pod_ is None` polling loop: `lookups n` is the value the
`n`-th call of `get_pod_by_id(podId)` resolves to.  `pollLoop lookups fuel i`
returns the index of the first non-null lookup at or after `i`, when it is
reached within `fuel` further calls; `none` means the fuel bound was hit
while every lookup so far was null. -/
def pollLoop (lookups : Nat → Option RunPodInstance) : Nat → Nat → Option Nat
  | 0, _ => none
  | fuel + 1, i => if (lookups i).isSome then some i else pollLoop lookups fuel (i + 1)

/-- One fuel-bounded run of `create_instance`: either the value it returns
together with the list of `asyncio.sleep` durations it performed, an
exception it raised, or `outOfFuel` — the latter for every fuel value is
the embedding of an execution that never returns. -/
inductive CreateRun where
  | returns (pod : Option RunPodInstance) (sleeps : List Nat)
  | raised (e : PyExn)
  | outOfFuel
deriving DecidableEq, Repr

/-- `RunPod.create_instance` with `spot=True`: runs the creation mutation,
propagates its exceptions, returns `None` if it yielded no pod, and
otherwise polls `get_pod_by_id` every 3 seconds until a lookup is non-null,
finally returning the pod from the creation call. -/
def create_instance (args : CreateArgs) (out : QueryOutcome CreatePodData)
    (lookups : Nat → Option RunPodInstance) (fuel : Nat) : CreateRun :=
  match create_spot_instance args out with
  | .error e => .raised e
  | .ok none => .returns none []
  | .ok (some pod) =>
    match pollLoop lookups fuel 0 with
    | some k => .returns (some pod) (List.replicate k 3)
    | none => .outOfFuel

/-! ## Command handlers (`runpodpy/cli.py`) -/

/-- What the `create` handler reports after `create_instance` comes back
(or does not): the `except OutbidException` arm sets `pod = None`, after
which a null pod is logged as a failed creation and a non-null pod as a
successful one; any other exception propagates out of the handler. -/
inductive CreateReport where
  | loggedFailure
  | loggedCreated (podId : String)
  | crashed (e : PyExn)
  | hung
deriving DecidableEq, Repr

/-- The tail of `cli.create`: `try: pod = await runpod.create_instance(...)
except OutbidException: pod = None` followed by the null check. -/
def cli_create (run : CreateRun) : CreateReport :=
  match run with
  | .returns none _ => .loggedFailure
  | .returns (some pod) _ => .loggedCreated pod.podId
  | .raised (.outbid _) => .loggedFailure
  | .raised e => .crashed e
  | .outOfFuel => .hung

/-- Observable steps of the `stop` handler. -/
inductive CliEvent where
  | testConn
  | fetchPods
  | stopMutation (podId : String)
  | logInfo (msg : String)
  | logError (msg : String)
  | raiseExn (msg : String)
deriving DecidableEq, Repr

/-- `cli.stop`: the connectivity check, then either the single-pod path,
the `--all` path (fetch the listing once, stop each pod in order with a
per-pod log, then the completion summary), or the usage error. -/
def cli_stop (connected : Bool) (podIdCfg : Option String) (allFlag : Bool)
    (pods : List RunPodInstance) : List CliEvent :=
  if !connected then [.testConn, .raiseExn "Runpod API is not connected"]
  else
    match podIdCfg with
    | some pid => [.testConn, .stopMutation pid, .logInfo ("Stopped pod " ++ pid)]
    | none =>
      if allFlag then
        [.testConn, .logInfo "Stopping all pods", .fetchPods]
          ++ pods.flatMap (fun p => [.stopMutation p.podId, .logInfo ("Stopped pod " ++ p.podId)])
          ++ [.logInfo "DONE | Stopped all pods"]
      else [.testConn, .logError "No --podId or --all specified"]

/-! ## `RunPodInstance` convenience methods

Each method awaits the corresponding `RunPod` operation (abstracted here by
a function from the arguments the method passes to the boolean the
operation returns, or the exception it raises) and falls off the end of its
body, so it returns Python `None`. -/

/-- `RunPodInstance.stop_instance(self, runpod, logger)`. -/
def RunPodInstance.stop_instance (self : RunPodInstance)
    (stopOp : String → Except PyExn Bool) : Except PyExn (Option Bool) :=
  (stopOp self.podId).map (fun _ => none)

/-- `RunPodInstance.destroy_instance(self, runpod, logger)`. -/
def RunPodInstance.destroy_instance (self : RunPodInstance)
    (destroyOp : String → Except PyExn Bool) : Except PyExn (Option Bool) :=
  (destroyOp self.podId).map (fun _ => none)

/-- `RunPodInstance.start_instance(self, runpod, logger, max_bid)`; the
awaited operation receives `self.podId`, `self.gpuCount`, `max_bid` (kept
in raw string form) and `self.spot`. -/
def RunPodInstance.start_instance (self : RunPodInstance)
    (startOp : String → Int → Option String → Bool → Except PyExn Bool)
    (max_bid : Option String) : Except PyExn (Option Bool) :=
  (startOp self.podId self.gpuCount max_bid self.spot).map (fun _ => none)

/-! ## `config_builder` (`runpodpy/config.py`)

The nesting loop at the end of `config_builder`: each parsed argument
`(arg_key, arg_val)` is split on `'.'` and walked/created into the nested
`Config` (a `Munch`, i.e. an insertion-ordered string-keyed dictionary).
Parsed argument values are embedded as `PyVal`; a dictionary is an
association list in insertion order, with Python dict assignment keeping an
existing key's position. -/

/-- A parsed argument value (string / int / bool / `None`). -/
inductive PyVal where
  | str (s : String)
  | int (n : Int)
  | bool (b : Bool)
  | pyNone
deriving DecidableEq, Repr

/-- A value stored in a `Config`: either a plain argument value (a leaf)
or a nested `Config` (the association list of a node). -/
inductive CTree where
  | leaf (v : PyVal)
  | node (entries : List (String × CTree))

/-- Dictionary lookup (`hasattr` / `getattr` on a `Munch`). -/
def lookupKey : List (String × CTree) → String → Option CTree
  | [], _ => none
  | (k', t) :: rest, k => if k' = k then some t else lookupKey rest k

/-- Dictionary assignment `head[k] = t`: replaces in place if `k` is
present, appends otherwise. -/
def setKey : List (String × CTree) → String → CTree → List (String × CTree)
  | [], k, t => [(k, t)]
  | (k', t') :: rest, k, t =>
    if k' = k then (k, t) :: rest else (k', t') :: setKey rest k t

/-- `splitOnChar c l`: split `l` at every occurrence of `c` (Python
`str.split` with a one-character separator: never empty, keeps empty
pieces). -/
def splitOnChar (c : Char) : List Char → List (List Char)
  | [] => [[]]
  | x :: xs =>
    match splitOnChar c xs with
    | [] => [[]]
    | g :: gs => if x = c then [] :: g :: gs else (x :: g) :: gs

/-- Python `arg_key.split('.')`. -/
def pySplitDots (s : String) : List String :=
  (splitOnChar '.' s.data).map (fun cs => ⟨cs⟩)

/-- The body of the `for arg_key, arg_val in params.__dict__.items()` loop:
walk the split key, descending into an existing entry or creating a fresh
`Config()` for each missing level, and assign the value at the last
component.  Walking *into a leaf* makes the Python code perform item
assignment on a non-dictionary (a `TypeError`), embedded as `none`. -/
def insertPath : List (String × CTree) → List String → PyVal → Option (List (String × CTree))
  | entries, [], _ => some entries
  | entries, [k], v => some (setKey entries k (.leaf v))
  | entries, k :: rest@(_ :: _), v =>
    match lookupKey entries k with
    | some (.node sub) => (insertPath sub rest v).map (fun sub2 => setKey entries k (.node sub2))
    | some (.leaf _) => none
    | none => (insertPath [] rest v).map (fun sub2 => setKey entries k (.node sub2))

/-- The whole loop, over the parsed-argument items in order. -/
def config_builder_go : List (String × CTree) → List (String × PyVal) → Option (List (String × CTree))
  | c, [] => some c
  | c, (k, v) :: args =>
    match insertPath c (pySplitDots k) v with
    | some c2 => config_builder_go c2 args
    | none => none

/-- `config_builder`'s result on the parsed arguments `params.__dict__`,
starting from the empty `Config()`. -/
def config_builder (args : List (String × PyVal)) : Option (List (String × CTree)) :=
  config_builder_go [] args

/-- Path lookup in a built config: `config[k1][k2]...[kn]`. -/
def lookupPath : List (String × CTree) → List String → Option CTree
  | _, [] => none
  | entries, [k] => lookupKey entries k
  | entries, k :: rest@(_ :: _) =>
    match lookupKey entries k with
    | some (.node sub) => lookupPath sub rest
    | _ => none

/-- `isLeafAt e p`: the path `p` currently holds a plain value in `e`. -/
def isLeafAt (e : List (String × CTree)) (p : List String) : Bool :=
  match lookupPath e p with
  | some (.leaf _) => true
  | _ => false

/-! ## Sample data used by concrete witnesses -/

/-- A well-formed pod response object. -/
def samplePodData : PodData :=
  { id := "p1", name := "mypod", podType := "INTERRUPTABLE",
    costPerHr := some "0.2", gpuCount := 1, vcpuCount := 8, memoryInGb := 32,
    imageName := "img", desiredStatus := "RUNNING",
    machine := { podHostId := "host1", gpuDisplayName := "RTX 3090", secureCloud := false } }

/-- The `RunPodInstance` that `samplePodData` parses to. -/
def samplePod : RunPodInstance :=
  { podName := "mypod", cost := some "0.2", podId := "p1", podHostId := "host1",
    spot := true, gpuDisplayName := .typeId .RTX_3090, gpuCount := 1,
    vcpuCount := 8, memoryInGb := 32, cloudType := .COMMUNITY,
    imageName := "img", desiredStatus := .RUNNING }

/-- A well-formed creation-mutation response object. -/
def sampleCreateData : CreatePodData :=
  { id := "p9", imageName := "img", podType := "INTERRUPTABLE",
    costPerHr := "0.21", gpuCount := 1, vcpuCount := 8, memoryInGb := 32,
    desiredStatus := "RUNNING", machinePodHostId := "host9",
    machineGpuDisplayName := "RTX 3090" }

/-- Creation arguments matching `sampleCreateData`. -/
def sampleCreateArgs : CreateArgs :=
  { podName := "mypod", imageName := "img", gpuTypeId := .RTX_3090,
    cloudType := .COMMUNITY }

end RunPodPy

namespace RunPodPy

/-! ## C1 — `GPUTypeId.from_gpuDisplayName` -/

/-- C1, counterexample: the display value of the member `RTX_3080_TI` is
`"NVIDIA GeForce RTX 3080 Ti"`, yet looking that very string up raises
`ValueError` (the lookup normalises to `"NVIDIA_GEFORCE_RTX_3080_TI"`,
which is no member *name*), contradicting the claim that every display
value resolves to its member. -/
theorem from_gpuDisplayName_fails_on_display_value :
    GPUTypeId.value .RTX_3080_TI = "NVIDIA GeForce RTX 3080 Ti"
    ∧ GPUTypeId.from_gpuDisplayName "NVIDIA GeForce RTX 3080 Ti" = none := by
  constructor
  · rfl
  · decide

/-- C1, amended: `from_gpuDisplayName s` returns the member `t` exactly
when `s` with spaces replaced by underscores and upper-cased equals `t`'s
Python member *name* (e.g. `"RTX 3080 Ti" ↦ RTX_3080_TI`); for every other
string — including the members' own display values, such as
`"NVIDIA GeForce RTX 3080 Ti"` — it raises `ValueError`. -/
theorem from_gpuDisplayName_iff_member_name (s : String) (t : GPUTypeId) :
    GPUTypeId.from_gpuDisplayName s = some t ↔ pyNormalizeGpuName s = t.memberName := by
  constructor
  · intro h
    have h2 := List.find?_some h
    simp only [beq_iff_eq] at h2
    exact h2.symm
  · intro h
    show GPUTypeId.allMembers.find? (fun u => u.memberName == pyNormalizeGpuName s) = some t
    rw [h]
    cases t <;> rfl

/-! ## C2 — `get_pod_by_id` error taxonomy -/

/-- C2: `get_pod_by_id` returns the parsed `RunPodInstance` on a successful
(well-formed) response; on a `TransportQueryError` it returns the `None`
sentinel exactly when the first error's `extensions.code` is
`"INTERNAL_SERVER_ERROR"` and raises `RunPodException` for any other first
error, for an empty error list, and for a `TransportServerError`. -/
theorem get_pod_by_id_spec (podId : String) (d : PodData) (e : GqlError)
    (es : List GqlError) (pod : RunPodInstance)
    (hd : parsePodData d = some pod) :
    get_pod_by_id podId (.success d) = .found pod
    ∧ (e.extensionsCode = "INTERNAL_SERVER_ERROR" →
        get_pod_by_id podId (.queryError (e :: es)) = .notFound)
    ∧ (e.extensionsCode ≠ "INTERNAL_SERVER_ERROR" →
        ∃ msg, get_pod_by_id podId (.queryError (e :: es)) = .raised (.runPod msg))
    ∧ (∃ msg, get_pod_by_id podId (.queryError []) = .raised (.runPod msg))
    ∧ (∃ msg, get_pod_by_id podId .serverError = .raised (.runPod msg)) := by
  refine ⟨?_, ?_, ?_, ⟨_, rfl⟩, ⟨_, rfl⟩⟩
  · simp [get_pod_by_id, hd]
  · intro h
    simp [get_pod_by_id, h]
  · intro h
    exact ⟨"Failed to get pod " ++ podId, by simp [get_pod_by_id, beq_iff_eq, h]⟩

/-- C2, witness: the three interesting branches at concrete inputs. -/
theorem get_pod_by_id_spec_witness :
    get_pod_by_id "p1" (.success samplePodData) = .found samplePod
    ∧ get_pod_by_id "p1" (.queryError [⟨"boom", "INTERNAL_SERVER_ERROR"⟩]) = .notFound
    ∧ (∃ msg, get_pod_by_id "p1" (.queryError [⟨"boom", "FORBIDDEN"⟩]) = .raised (.runPod msg)) := by
  refine ⟨?_, ?_, ?_⟩
  · exact (get_pod_by_id_spec "p1" samplePodData ⟨"boom", "INTERNAL_SERVER_ERROR"⟩ []
      samplePod (by decide)).1
  · exact (get_pod_by_id_spec "p1" samplePodData ⟨"boom", "INTERNAL_SERVER_ERROR"⟩ []
      samplePod (by decide)).2.1 rfl
  · exact (get_pod_by_id_spec "p1" samplePodData ⟨"boom", "FORBIDDEN"⟩ []
      samplePod (by decide)).2.2.1 (by decide)

/-! ## C3 — outbid on creation -/

/-- C3: when the creation mutation fails with a first error whose message
contains `"outbid"`, `__create_spot_instance` raises `OutbidException`
(not a generic `None` result), `create_instance` propagates it, and the
`create` command handler catches it and reports a failed creation
(`pod is None`) instead of crashing. -/
theorem create_outbid_caught (args : CreateArgs) (e : GqlError) (es : List GqlError)
    (lookups : Nat → Option RunPodInstance) (fuel : Nat)
    (h : pyIn "outbid" e.message = true) :
    create_spot_instance args (.queryError (e :: es)) = .error (.outbid e.message)
    ∧ create_instance args (.queryError (e :: es)) lookups fuel = .raised (.outbid e.message)
    ∧ cli_create (create_instance args (.queryError (e :: es)) lookups fuel) = .loggedFailure := by
  refine ⟨?_, ?_, ?_⟩ <;> simp [create_spot_instance, create_instance, cli_create, h]

/-- C3, witness: a concrete outbid error message. -/
theorem create_outbid_caught_witness :
    cli_create (create_instance sampleCreateArgs
      (.queryError [⟨"your bid is too low: outbid", "BAD_REQUEST"⟩])
      (fun _ => none) 0) = .loggedFailure :=
  (create_outbid_caught sampleCreateArgs ⟨"your bid is too low: outbid", "BAD_REQUEST"⟩ []
    (fun _ => none) 0 (by decide)).2.2

/-! ## C4 — idempotent start -/

/-- C4: on both the spot and the on-demand path of `start_instance`, a
`TransportQueryError` whose first error message contains `"Cannot resume a
pod that is not in exited state"` (the pod is already running) makes the
call return `True`. -/
theorem start_instance_already_running (podId : String) (spot : Bool)
    (e : GqlError) (es : List GqlError)
    (h : pyIn "Cannot resume a pod that is not in exited state" e.message = true) :
    start_instance podId spot (.queryError (e :: es)) = .ok true := by
  cases spot <;>
    simp [start_instance, start_spot_instance, start_on_demand_instance, h]

/-- C4, witness: the exact remote message, on both paths. -/
theorem start_instance_already_running_witness :
    start_instance "p1" true
      (.queryError [⟨"Cannot resume a pod that is not in exited state", "X"⟩]) = .ok true
    ∧ start_instance "p1" false
      (.queryError [⟨"Cannot resume a pod that is not in exited state", "X"⟩]) = .ok true :=
  ⟨start_instance_already_running "p1" true _ [] (by decide),
   start_instance_already_running "p1" false _ [] (by decide)⟩

/-! ## C7 — stop / destroy booleans -/

/-- C7: `stop_instance(podId)` returns `True` iff the `podStop` response
echoes `podId` with desired status `"EXITED"`; `destroy_instance(podId)`
returns `True` iff the `podTerminate` mutation returns `null` (its
confirmation); both return `False` — and do not raise — on any query or
transport failure. -/
theorem stop_destroy_confirm (podId : String) (d : PodStopData)
    (d2 : PodTerminateData) (errs : List GqlError) :
    (stop_instance podId (.success d) = true ↔ d.id = podId ∧ d.desiredStatus = "EXITED")
    ∧ stop_instance podId (.queryError errs) = false
    ∧ stop_instance podId .serverError = false
    ∧ (destroy_instance podId (.success d2) = true ↔ d2.podTerminate = none)
    ∧ destroy_instance podId (.queryError errs) = false
    ∧ destroy_instance podId .serverError = false := by
  refine ⟨?_, rfl, rfl, ?_, rfl, rfl⟩
  · simp [stop_instance]
  · simp [destroy_instance, Option.isNone_iff_eq_none]

/-! ## C10 — `RunPodInstance` methods discard their result -/

/-- C10: the `RunPodInstance` convenience methods are annotated `-> bool`
but always return Python `None`: each awaits the corresponding `RunPod`
operation and discards its boolean result, so whenever the awaited
operation returns a boolean — even `True` — the method returns `None`,
which is falsy for a caller branching on it. -/
theorem instance_methods_return_none (self : RunPodInstance)
    (stopOp destroyOp : String → Except PyExn Bool)
    (startOp : String → Int → Option String → Bool → Except PyExn Bool)
    (max_bid : Option String) (b1 b2 b3 : Bool)
    (h1 : stopOp self.podId = .ok b1)
    (h2 : destroyOp self.podId = .ok b2)
    (h3 : startOp self.podId self.gpuCount max_bid self.spot = .ok b3) :
    self.stop_instance stopOp = .ok none
    ∧ self.destroy_instance destroyOp = .ok none
    ∧ self.start_instance startOp max_bid = .ok none
    ∧ pyTruthy none = false := by
  refine ⟨?_, ?_, ?_, rfl⟩ <;>
    simp [RunPodInstance.stop_instance, RunPodInstance.destroy_instance,
      RunPodInstance.start_instance, h1, h2, h3, Except.map]

/-- C10, witness: every underlying operation succeeds with `True`, yet all
three methods return `None`. -/
theorem instance_methods_return_none_witness :
    samplePod.stop_instance (fun _ => .ok true) = .ok none
    ∧ samplePod.destroy_instance (fun _ => .ok true) = .ok none
    ∧ samplePod.start_instance (fun _ _ _ _ => .ok true) none = .ok none
    ∧ pyTruthy none = false :=
  instance_methods_return_none samplePod (fun _ => .ok true) (fun _ => .ok true)
    (fun _ _ _ _ => .ok true) none true true true rfl rfl rfl

/-! ## C5 — unbounded 3-second polling after creation -/

/-- If every lookup is null, the polling loop exhausts any fuel bound. -/
theorem pollLoop_all_none (lookups : Nat → Option RunPodInstance)
    (h : ∀ n, lookups n = none) : ∀ fuel i, pollLoop lookups fuel i = none := by
  intro fuel
  induction fuel with
  | zero => intro i; rfl
  | succ fuel ih =>
    intro i
    simp [pollLoop, h i, ih]

/-- The polling loop stops at the first non-null lookup, for every
sufficiently large fuel bound. -/
theorem pollLoop_first_hit (lookups : Nat → Option RunPodInstance) (k : Nat)
    (hk : (lookups k).isSome) (hmin : ∀ j, j < k → lookups j = none) :
    ∀ fuel i, i ≤ k → k < i + fuel → pollLoop lookups fuel i = some k := by
  intro fuel
  induction fuel with
  | zero => omega
  | succ fuel ih =>
    intro i hik hlt
    rcases Nat.eq_or_lt_of_le hik with rfl | hlt2
    · simp [pollLoop, hk]
    · have hnone : lookups i = none := hmin i hlt2
      simp only [pollLoop, hnone, Option.isSome_none, Bool.false_eq_true, if_false]
      exact ih (i + 1) hlt2 (by omega)

/-- C5: once the creation call has yielded a pod, `create_instance` polls
`get_pod_by_id` with a 3-second `asyncio.sleep` between attempts and no
bound on their number: if every lookup is null it never returns (it runs
out of any fuel bound), and if the first non-null lookup is the `k`-th it
returns the created pod after exactly `k` sleeps of 3 seconds, for every
fuel bound that reaches that attempt. -/
theorem create_instance_polls_until_found (args : CreateArgs)
    (out : QueryOutcome CreatePodData) (pod : RunPodInstance)
    (lookups : Nat → Option RunPodInstance)
    (hc : create_spot_instance args out = .ok (some pod)) :
    ((∀ n, lookups n = none) → ∀ fuel, create_instance args out lookups fuel = .outOfFuel)
    ∧ (∀ k, (lookups k).isSome → (∀ j, j < k → lookups j = none) →
        ∀ fuel, k + 1 ≤ fuel →
          create_instance args out lookups fuel = .returns (some pod) (List.replicate k 3)) := by
  constructor
  · intro h fuel
    simp [create_instance, hc, pollLoop_all_none lookups h fuel 0]
  · intro k hk hmin fuel hfuel
    simp [create_instance, hc,
      pollLoop_first_hit lookups k hk hmin fuel 0 (Nat.zero_le k) (by omega)]

/-- The `RunPodInstance` that `create_spot_instance` builds from
`sampleCreateArgs` and `sampleCreateData`. -/
def sampleCreatedPod : RunPodInstance :=
  { podName := "mypod", cost := some "0.21", podId := "p9",
    podHostId := "host9", spot := true, gpuDisplayName := .typeId .RTX_3090,
    gpuCount := 1, vcpuCount := 8, memoryInGb := 32, cloudType := .COMMUNITY,
    imageName := "img", desiredStatus := .RUNNING }

/-- C5, witness: the first two lookups are null and the third resolves, so
the call returns after two 3-second sleeps. -/
theorem create_instance_polls_until_found_witness :
    create_instance sampleCreateArgs (.success sampleCreateData)
      (fun n => if n = 2 then some samplePod else none) 3 =
      .returns (some sampleCreatedPod) [3, 3] :=
  (create_instance_polls_until_found sampleCreateArgs (.success sampleCreateData)
    sampleCreatedPod (fun n => if n = 2 then some samplePod else none) rfl).2
    2 (by decide) (by decide) 3 (by decide)

/-! ## C6 — GPU parse failure in `get_pods` -/

/-- A pod response whose machine reports a GPU display name outside the
enumeration. -/
def unknownGpuPodData : PodData :=
  { id := "p2", name := "otherpod", podType := "RESERVED", costPerHr := none,
    gpuCount := 2, vcpuCount := 4, memoryInGb := 16, imageName := "img2",
    desiredStatus := "EXITED",
    machine := { podHostId := "host2", gpuDisplayName := "SuperGPU 9000", secureCloud := true } }

/-- The `RunPodInstance` that `unknownGpuPodData` parses to. -/
def unknownGpuPod : RunPodInstance :=
  { podName := "otherpod", cost := none, podId := "p2", podHostId := "host2",
    spot := false, gpuDisplayName := .pyNone, gpuCount := 2, vcpuCount := 4,
    memoryInGb := 16, cloudType := .SECURE, imageName := "img2",
    desiredStatus := .EXITED }

/-- C6, counterexample: on a listing whose second pod has an unparseable
GPU display name, `get_pods` does include that pod — but with
`gpuDisplayName` set to Python `None` (`GpuSlot.pyNone`), not to the
string `"unknown"` the claim asserts. -/
theorem get_pods_unknown_gpu_not_string_unknown :
    get_pods (.success [samplePodData, unknownGpuPodData]) = .ok [samplePod, unknownGpuPod]
    ∧ unknownGpuPod.gpuDisplayName = .pyNone
    ∧ (GpuSlot.pyNone ≠ .pyStr "unknown") := by
  refine ⟨by decide, rfl, by decide⟩

/-- Leaving out the GPU name parse, `parsePodData` succeeds iff the
desired-status string is a member of `PodStatus`. -/
theorem parsePodData_gpu_fallback (d : PodData) (p : RunPodInstance)
    (hp : parsePodData d = some p)
    (hgpu : GPUTypeId.from_gpuDisplayName d.machine.gpuDisplayName = none) :
    p.gpuDisplayName = .pyNone := by
  cases h1 : PodStatus.fromName d.desiredStatus with
  | none => simp [parsePodData, h1] at hp
  | some st =>
    simp only [parsePodData, h1, Option.some_inj] at hp
    subst hp
    simp [hgpu]

/-- The `get_pods` loop succeeds on every listing whose desired-status
strings are well-formed, pairing each response pod with its parse. -/
theorem buildPods_total (ds : List PodData)
    (hok : ∀ d ∈ ds, (PodStatus.fromName d.desiredStatus).isSome = true) :
    ∃ ps, buildPods ds = some ps ∧ ps.length = ds.length
    ∧ ∀ i (hi : i < ds.length) (hp : i < ps.length),
        parsePodData (ds.get ⟨i, hi⟩) = some (ps.get ⟨i, hp⟩) := by
  induction ds with
  | nil => exact ⟨[], rfl, rfl, fun i hi => absurd hi (Nat.not_lt_zero i)⟩
  | cons d ds ih =>
    have hd : (PodStatus.fromName d.desiredStatus).isSome = true :=
      hok d (List.mem_cons_self d ds)
    have hparse : (parsePodData d).isSome = true := by
      cases h1 : PodStatus.fromName d.desiredStatus with
      | none => rw [h1] at hd; exact absurd hd (by simp)
      | some st => simp [parsePodData, h1]
    obtain ⟨p, hp⟩ := Option.isSome_iff_exists.mp hparse
    obtain ⟨ps, hps, hlen, hidx⟩ := ih (fun d2 h2 => hok d2 (List.mem_cons_of_mem d h2))
    refine ⟨p :: ps, ?_, by simp [hlen], ?_⟩
    · simp [buildPods, hp, hps]
    · intro i hi hp2
      match i with
      | 0 => exact hp
      | i + 1 => exact hidx i (Nat.lt_of_succ_lt_succ hi) (Nat.lt_of_succ_lt_succ hp2)

/-- C6, amended: a failure to parse one pod's GPU display name does not
abort the listing — `get_pods` still returns one `RunPodInstance` per
response pod in order, the offending pod included with its
`gpuDisplayName` set to the null sentinel (Python `None`, not the string
`"unknown"`), and every other pod parsed unchanged. -/
theorem get_pods_tolerates_unknown_gpu (ds : List PodData)
    (hok : ∀ d ∈ ds, (PodStatus.fromName d.desiredStatus).isSome = true) :
    ∃ ps, get_pods (.success ds) = .ok ps ∧ ps.length = ds.length
    ∧ ∀ i (hi : i < ds.length) (hp : i < ps.length),
        parsePodData (ds.get ⟨i, hi⟩) = some (ps.get ⟨i, hp⟩)
        ∧ (GPUTypeId.from_gpuDisplayName (ds.get ⟨i, hi⟩).machine.gpuDisplayName = none →
            (ps.get ⟨i, hp⟩).gpuDisplayName = .pyNone) := by
  obtain ⟨ps, hps, hlen, hidx⟩ := buildPods_total ds hok
  refine ⟨ps, by simp [get_pods, hps], hlen, ?_⟩
  intro i hi hp
  exact ⟨hidx i hi hp, parsePodData_gpu_fallback _ _ (hidx i hi hp)⟩

/-! ## C8 — `stop --all` -/

/-- The pod id carried by a stop mutation event, if any. -/
def stopIdOf : CliEvent → Option String
  | .stopMutation pid => some pid
  | _ => none

/-- The stop mutations issued by the per-pod loop of `stop --all` are
exactly one per pod, in listing order. -/
theorem stops_of_loop (pods : List RunPodInstance) :
    (pods.flatMap (fun p =>
        [CliEvent.stopMutation p.podId, .logInfo ("Stopped pod " ++ p.podId)])).filterMap stopIdOf
      = pods.map (fun p => p.podId) := by
  induction pods with
  | nil => rfl
  | cons p pods ih => simp [ih, stopIdOf]

/-- The per-pod loop of `stop --all` never refetches the listing. -/
theorem no_fetch_in_loop (pods : List RunPodInstance) :
    (pods.flatMap (fun p =>
        [CliEvent.stopMutation p.podId, .logInfo ("Stopped pod " ++ p.podId)])).count .fetchPods
      = 0 := by
  induction pods with
  | nil => rfl
  | cons p pods ih =>
    simp only [List.flatMap_cons, List.count_append, ih]
    rfl

/-- C8: on a `stop` invocation with the `--all` flag, no pod id and a
connected API, the handler fetches the listing exactly once, issues exactly
one stop mutation per fetched pod in listing order, logs a per-pod message
immediately after each mutation, and ends with the completion summary. -/
theorem cli_stop_all_spec (pods : List RunPodInstance) :
    (cli_stop true none true pods).filterMap stopIdOf = pods.map (fun p => p.podId)
    ∧ (cli_stop true none true pods).count .fetchPods = 1
    ∧ (cli_stop true none true pods).getLast? = some (.logInfo "DONE | Stopped all pods")
    ∧ ∀ p ∈ pods,
        [CliEvent.stopMutation p.podId, .logInfo ("Stopped pod " ++ p.podId)]
          <:+: cli_stop true none true pods := by
  refine ⟨?_, ?_, ?_, ?_⟩
  · simp [cli_stop, stops_of_loop, stopIdOf]
  · simp [cli_stop, List.count_append, no_fetch_in_loop]
  · simp only [cli_stop, Bool.not_true, Bool.false_eq_true, if_false, if_true]
    exact List.getLast?_concat _
  · intro p hp
    obtain ⟨s, t, rfl⟩ := List.append_of_mem hp
    refine ⟨[CliEvent.testConn, .logInfo "Stopping all pods", .fetchPods]
        ++ s.flatMap (fun q =>
          [CliEvent.stopMutation q.podId, .logInfo ("Stopped pod " ++ q.podId)]),
      (t.flatMap (fun q =>
          [CliEvent.stopMutation q.podId, .logInfo ("Stopped pod " ++ q.podId)]))
        ++ [.logInfo "DONE | Stopped all pods"], ?_⟩
    simp [cli_stop]

/-- A pod differing from `samplePod` only in its id. -/
def podWithId (pid : String) : RunPodInstance :=
  { samplePod with podId := pid }

/-- C8, witness: three pods produce exactly three stop mutations, one per
pod id, in listing order, with the summary last. -/
theorem cli_stop_all_spec_witness :
    (cli_stop true none true [podWithId "a", podWithId "b", podWithId "c"]).filterMap stopIdOf
      = ["a", "b", "c"]
    ∧ (cli_stop true none true [podWithId "a", podWithId "b", podWithId "c"]).count .fetchPods = 1
    ∧ (cli_stop true none true [podWithId "a", podWithId "b", podWithId "c"]).getLast?
      = some (.logInfo "DONE | Stopped all pods")
    ∧ [CliEvent.stopMutation "b", .logInfo "Stopped pod b"]
        <:+: cli_stop true none true [podWithId "a", podWithId "b", podWithId "c"] := by
  obtain ⟨h1, h2, h3, h4⟩ := cli_stop_all_spec [podWithId "a", podWithId "b", podWithId "c"]
  exact ⟨h1, h2, h3, h4 (podWithId "b") (by decide)⟩

/-- C6, witness for the amended claim: the two-pod listing again. -/
theorem get_pods_tolerates_unknown_gpu_witness :
    ∃ ps, get_pods (.success [samplePodData, unknownGpuPodData]) = .ok ps
    ∧ ps.length = [samplePodData, unknownGpuPodData].length
    ∧ ∀ i (hi : i < [samplePodData, unknownGpuPodData].length) (hp : i < ps.length),
        parsePodData ([samplePodData, unknownGpuPodData].get ⟨i, hi⟩) = some (ps.get ⟨i, hp⟩)
        ∧ (GPUTypeId.from_gpuDisplayName
            (([samplePodData, unknownGpuPodData].get ⟨i, hi⟩).machine.gpuDisplayName) = none →
            (ps.get ⟨i, hp⟩).gpuDisplayName = .pyNone) :=
  get_pods_tolerates_unknown_gpu [samplePodData, unknownGpuPodData] (by decide)

/-! ## C9 — `config_builder` nests dotted argument names -/

theorem lookupPath_nil_entries (p : List String) :
    lookupPath ([] : List (String × CTree)) p = none := by
  match p with
  | [] => simp [lookupPath]
  | [k] => simp [lookupPath, lookupKey]
  | k :: k2 :: r => simp [lookupPath, lookupKey]

theorem lookupKey_setKey_self (e : List (String × CTree)) (k : String) (t : CTree) :
    lookupKey (setKey e k t) k = some t := by
  induction e with
  | nil => simp [setKey, lookupKey]
  | cons hd tl ih =>
    obtain ⟨k1, t1⟩ := hd
    by_cases h : k1 = k
    · simp [setKey, h, lookupKey]
    · simp [setKey, h, lookupKey, ih]

theorem lookupKey_setKey_ne (e : List (String × CTree)) (k k2 : String) (t : CTree)
    (h : k ≠ k2) : lookupKey (setKey e k t) k2 = lookupKey e k2 := by
  induction e with
  | nil => simp [setKey, lookupKey, h]
  | cons hd tl ih =>
    obtain ⟨k1, t1⟩ := hd
    by_cases h1 : k1 = k
    · subst h1
      simp [setKey, lookupKey, h]
    · by_cases h2 : k1 = k2
      · subst h2
        simp [setKey, lookupKey, h1]
      · simp [setKey, lookupKey, h1, h2, ih]

theorem lookupPath_cons_node (e : List (String × CTree)) (k : String)
    (sub : List (String × CTree)) (p : List String) (hp : p ≠ [])
    (hk : lookupKey e k = some (.node sub)) :
    lookupPath e (k :: p) = lookupPath sub p := by
  match p with
  | [] => exact absurd rfl hp
  | x :: r => simp [lookupPath, hk]

theorem lookupPath_cons_none (e : List (String × CTree)) (k : String)
    (p : List String) (hp : p ≠ []) (hk : lookupKey e k = none) :
    lookupPath e (k :: p) = none := by
  match p with
  | [] => exact absurd rfl hp
  | x :: r => simp [lookupPath, hk]

theorem lookupPath_cons_leaf (e : List (String × CTree)) (k : String) (v : PyVal)
    (p : List String) (hp : p ≠ []) (hk : lookupKey e k = some (.leaf v)) :
    lookupPath e (k :: p) = none := by
  match p with
  | [] => exact absurd rfl hp
  | x :: r => simp [lookupPath, hk]

/-- Inserting at `path` makes `path` hold the inserted leaf. -/
theorem insertPath_lookup_self : ∀ (path : List String) (e : List (String × CTree))
    (v : PyVal) (e2 : List (String × CTree)),
    insertPath e path v = some e2 → path ≠ [] → lookupPath e2 path = some (.leaf v) := by
  intro path
  induction path with
  | nil => intro e v e2 _ hne; exact absurd rfl hne
  | cons k rest ih =>
    intro e v e2 h _
    cases rest with
    | nil =>
      simp only [insertPath, Option.some.injEq] at h
      subst h
      simp [lookupPath, lookupKey_setKey_self]
    | cons k2 r =>
      simp only [insertPath] at h
      cases hk : lookupKey e k with
      | none =>
        rw [hk] at h
        obtain ⟨sub2, hsub, rfl⟩ := Option.map_eq_some'.mp h
        rw [lookupPath_cons_node _ _ sub2 _ (by simp) (lookupKey_setKey_self _ _ _)]
        exact ih [] v sub2 hsub (by simp)
      | some t =>
        cases t with
        | leaf v1 => rw [hk] at h; simp at h
        | node sub =>
          rw [hk] at h
          obtain ⟨sub2, hsub, rfl⟩ := Option.map_eq_some'.mp h
          rw [lookupPath_cons_node _ _ sub2 _ (by simp) (lookupKey_setKey_self _ _ _)]
          exact ih sub v sub2 hsub (by simp)

/-- Inserting at `path` leaves every path that neither extends nor is
extended by `path` unchanged. -/
theorem insertPath_lookup_other : ∀ (path : List String) (e : List (String × CTree))
    (v : PyVal) (e2 : List (String × CTree)) (q : List String),
    insertPath e path v = some e2 → ¬ (path <+: q) → ¬ (q <+: path) →
    lookupPath e2 q = lookupPath e q := by
  intro path
  induction path with
  | nil => intro e v e2 q _ hpq _; exact absurd (List.nil_prefix) hpq
  | cons k rest ih =>
    intro e v e2 q h hpq hqp
    cases rest with
    | nil =>
      simp only [insertPath, Option.some.injEq] at h
      subst h
      match q with
      | [] => simp [lookupPath]
      | [q1] =>
        by_cases hq : q1 = k
        · subst hq; exact absurd (List.prefix_refl _) hpq
        · simp only [lookupPath]
          exact lookupKey_setKey_ne e k q1 _ (fun hh => hq hh.symm)
      | q1 :: q2 :: qr =>
        by_cases hq : q1 = k
        · subst hq; exact absurd ⟨q2 :: qr, rfl⟩ hpq
        · have hkey := lookupKey_setKey_ne e k q1 (.leaf v) (fun hh => hq hh.symm)
          simp only [lookupPath, hkey]
    | cons k2 r =>
      simp only [insertPath] at h
      cases hk : lookupKey e k with
      | none =>
        rw [hk] at h
        obtain ⟨sub2, hsub, rfl⟩ := Option.map_eq_some'.mp h
        match q with
        | [] => simp [lookupPath]
        | [q1] =>
          by_cases hq : q1 = k
          · subst hq; exact absurd ⟨k2 :: r, rfl⟩ hqp
          · simp only [lookupPath]
            exact lookupKey_setKey_ne e k q1 _ (fun hh => hq hh.symm)
        | q1 :: q2 :: qr =>
          by_cases hq : q1 = k
          · subst hq
            rw [lookupPath_cons_node _ _ sub2 _ (by simp) (lookupKey_setKey_self _ _ _)]
            rw [lookupPath_cons_none _ _ _ (by simp) hk]
            rw [ih [] v sub2 (q2 :: qr) hsub
              (fun hh => hpq (List.cons_prefix_cons.mpr ⟨rfl, hh⟩))
              (fun hh => hqp (List.cons_prefix_cons.mpr ⟨rfl, hh⟩))]
            exact lookupPath_nil_entries _
          · have hkey := lookupKey_setKey_ne e k q1 (.node sub2) (fun hh => hq hh.symm)
            simp only [lookupPath, hkey]
      | some t =>
        cases t with
        | leaf v1 => rw [hk] at h; simp at h
        | node sub =>
          rw [hk] at h
          obtain ⟨sub2, hsub, rfl⟩ := Option.map_eq_some'.mp h
          match q with
          | [] => simp [lookupPath]
          | [q1] =>
            by_cases hq : q1 = k
            · subst hq; exact absurd ⟨k2 :: r, rfl⟩ hqp
            · simp only [lookupPath]
              exact lookupKey_setKey_ne e k q1 _ (fun hh => hq hh.symm)
          | q1 :: q2 :: qr =>
            by_cases hq : q1 = k
            · subst hq
              rw [lookupPath_cons_node _ _ sub2 _ (by simp) (lookupKey_setKey_self _ _ _)]
              rw [lookupPath_cons_node _ _ sub _ (by simp) hk]
              exact ih sub v sub2 (q2 :: qr) hsub
                (fun hh => hpq (List.cons_prefix_cons.mpr ⟨rfl, hh⟩))
                (fun hh => hqp (List.cons_prefix_cons.mpr ⟨rfl, hh⟩))
            · have hkey := lookupKey_setKey_ne e k q1 (.node sub2) (fun hh => hq hh.symm)
              simp only [lookupPath, hkey]

/-- Inserting at `path` creates no leaf other than at `path`. -/
theorem insertPath_leaf_bound : ∀ (path : List String) (e : List (String × CTree))
    (v : PyVal) (e2 : List (String × CTree)) (p : List String),
    insertPath e path v = some e2 → isLeafAt e2 p = true →
    isLeafAt e p = true ∨ p = path := by
  intro path
  induction path with
  | nil =>
    intro e v e2 p h hl
    simp only [insertPath, Option.some.injEq] at h
    subst h
    exact Or.inl hl
  | cons k rest ih =>
    intro e v e2 p h hl
    cases rest with
    | nil =>
      simp only [insertPath, Option.some.injEq] at h
      subst h
      match p with
      | [] => simp [isLeafAt, lookupPath] at hl
      | [p1] =>
        by_cases hp : p1 = k
        · subst hp; exact Or.inr rfl
        · left
          have hkey := lookupKey_setKey_ne e k p1 (CTree.leaf v) (fun hh => hp hh.symm)
          simpa [isLeafAt, lookupPath, hkey] using hl
      | p1 :: p2 :: pr =>
        by_cases hp : p1 = k
        · subst hp
          rw [isLeafAt, lookupPath_cons_leaf _ _ v _ (by simp)
            (lookupKey_setKey_self _ _ _)] at hl
          exact absurd hl (by simp)
        · left
          have hkey := lookupKey_setKey_ne e k p1 (CTree.leaf v) (fun hh => hp hh.symm)
          simpa [isLeafAt, lookupPath, hkey] using hl
    | cons k2 r =>
      simp only [insertPath] at h
      cases hk : lookupKey e k with
      | none =>
        rw [hk] at h
        obtain ⟨sub2, hsub, rfl⟩ := Option.map_eq_some'.mp h
        match p with
        | [] => simp [isLeafAt, lookupPath] at hl
        | [p1] =>
          by_cases hp : p1 = k
          · subst hp
            rw [isLeafAt] at hl
            simp only [lookupPath, lookupKey_setKey_self] at hl
            exact absurd hl (by simp)
          · left
            have hkey := lookupKey_setKey_ne e k p1 (CTree.node sub2) (fun hh => hp hh.symm)
            simpa [isLeafAt, lookupPath, hkey] using hl
        | p1 :: p2 :: pr =>
          by_cases hp : p1 = k
          · subst hp
            rw [isLeafAt, lookupPath_cons_node _ _ sub2 _ (by simp)
              (lookupKey_setKey_self _ _ _)] at hl
            rcases ih [] v sub2 (p2 :: pr) hsub hl with h2 | h2
            · rw [isLeafAt, lookupPath_nil_entries] at h2
              exact absurd h2 (by simp)
            · exact Or.inr (by rw [h2])
          · left
            have hkey := lookupKey_setKey_ne e k p1 (CTree.node sub2) (fun hh => hp hh.symm)
            simpa [isLeafAt, lookupPath, hkey] using hl
      | some t =>
        cases t with
        | leaf v1 => rw [hk] at h; simp at h
        | node sub =>
          rw [hk] at h
          obtain ⟨sub2, hsub, rfl⟩ := Option.map_eq_some'.mp h
          match p with
          | [] => simp [isLeafAt, lookupPath] at hl
          | [p1] =>
            by_cases hp : p1 = k
            · subst hp
              rw [isLeafAt] at hl
              simp only [lookupPath, lookupKey_setKey_self] at hl
              exact absurd hl (by simp)
            · left
              have hkey := lookupKey_setKey_ne e k p1 (CTree.node sub2) (fun hh => hp hh.symm)
              simpa [isLeafAt, lookupPath, hkey] using hl
          | p1 :: p2 :: pr =>
            by_cases hp : p1 = k
            · subst hp
              rw [isLeafAt, lookupPath_cons_node _ _ sub2 _ (by simp)
                (lookupKey_setKey_self _ _ _)] at hl
              rcases ih sub v sub2 (p2 :: pr) hsub hl with h2 | h2
              · left
                rw [isLeafAt, lookupPath_cons_node _ _ sub _ (by simp) hk]
                exact h2
              · exact Or.inr (by rw [h2])
            · left
              have hkey := lookupKey_setKey_ne e k p1 (CTree.node sub2) (fun hh => hp hh.symm)
              simpa [isLeafAt, lookupPath, hkey] using hl

/-- Insertion succeeds whenever no strict prefix of the path currently
holds a plain value. -/
theorem insertPath_ok : ∀ (path : List String) (e : List (String × CTree)) (v : PyVal),
    (∀ p, p <+: path → p ≠ path → isLeafAt e p = false) →
    ∃ e2, insertPath e path v = some e2 := by
  intro path
  induction path with
  | nil => intro e v _; exact ⟨e, by simp [insertPath]⟩
  | cons k rest ih =>
    intro e v h
    cases rest with
    | nil => exact ⟨setKey e k (.leaf v), by simp [insertPath]⟩
    | cons k2 r =>
      cases hk : lookupKey e k with
      | none =>
        obtain ⟨sub2, hs⟩ := ih [] v (fun p _ _ => by
          rw [isLeafAt, lookupPath_nil_entries])
        exact ⟨setKey e k (.node sub2), by simp [insertPath, hk, hs]⟩
      | some t =>
        cases t with
        | leaf v1 =>
          have hfalse := h [k] ⟨k2 :: r, rfl⟩ (by simp)
          rw [isLeafAt] at hfalse
          simp only [lookupPath, hk] at hfalse
          exact absurd hfalse (by simp)
        | node sub =>
          obtain ⟨sub2, hs⟩ := ih sub v (fun p hp hne => by
            cases p with
            | nil => simp [isLeafAt, lookupPath]
            | cons p1 pr =>
              have hfalse := h (k :: p1 :: pr) (List.cons_prefix_cons.mpr ⟨rfl, hp⟩)
                (fun hh => hne (by injection hh))
              rw [isLeafAt, lookupPath_cons_node _ _ sub _ (by simp) hk] at hfalse
              rw [isLeafAt]
              exact hfalse)
          exact ⟨setKey e k (.node sub2), by simp [insertPath, hk, hs]⟩

theorem splitOnChar_ne_nil (c : Char) (l : List Char) : splitOnChar c l ≠ [] := by
  cases l with
  | nil => simp [splitOnChar]
  | cons x xs =>
    simp only [splitOnChar]
    cases h : splitOnChar c xs with
    | nil => simp
    | cons g gs => by_cases hx : x = c <;> simp [hx]

theorem pySplitDots_ne_nil (s : String) : pySplitDots s ≠ [] := by
  intro h
  rw [pySplitDots] at h
  exact splitOnChar_ne_nil '.' s.data (List.map_eq_nil_iff.mp h)

/-- Correctness of the whole argument loop, by induction over the items:
`e` is the configuration accumulated so far; the first hypothesis says no
strict prefix of a pending key path already holds a plain value. -/
theorem config_builder_go_spec : ∀ (args : List (String × PyVal)) (e : List (String × CTree)),
    (∀ a ∈ args, ∀ p, p <+: pySplitDots a.1 → p ≠ pySplitDots a.1 → isLeafAt e p = false) →
    args.Pairwise (fun a b =>
      ¬ (pySplitDots a.1 <+: pySplitDots b.1) ∧ ¬ (pySplitDots b.1 <+: pySplitDots a.1)) →
    ∃ c, config_builder_go e args = some c
    ∧ (∀ a ∈ args, lookupPath c (pySplitDots a.1) = some (.leaf a.2))
    ∧ (∀ q, (∀ a ∈ args, ¬ (pySplitDots a.1 <+: q) ∧ ¬ (q <+: pySplitDots a.1)) →
        lookupPath c q = lookupPath e q) := by
  intro args
  induction args with
  | nil => intro e _ _; exact ⟨e, rfl, by simp, fun q _ => rfl⟩
  | cons a rest ih =>
    intro e hleaf hpair
    obtain ⟨hhead, hpairtail⟩ := List.pairwise_cons.mp hpair
    obtain ⟨e1, he1⟩ := insertPath_ok (pySplitDots a.1) e a.2
      (hleaf a (List.mem_cons_self a rest))
    have hleaf1 : ∀ b ∈ rest, ∀ p, p <+: pySplitDots b.1 → p ≠ pySplitDots b.1 →
        isLeafAt e1 p = false := by
      intro b hb p hp hne
      cases hcase : isLeafAt e1 p with
      | false => rfl
      | true =>
        rcases insertPath_leaf_bound (pySplitDots a.1) e a.2 e1 p he1 hcase with hold | heq
        · rw [hleaf b (List.mem_cons_of_mem a hb) p hp hne] at hold
          exact absurd hold (by simp)
        · subst heq
          exact absurd hp (hhead b hb).1
    obtain ⟨c, hc, hlook, hpres⟩ := ih e1 hleaf1 hpairtail
    refine ⟨c, ?_, ?_, ?_⟩
    · simp only [config_builder_go, he1]
      exact hc
    · intro b hb
      rcases List.mem_cons.mp hb with rfl | hb2
      · rw [hpres (pySplitDots b.1) (fun x hx => ⟨(hhead x hx).2, (hhead x hx).1⟩)]
        exact insertPath_lookup_self (pySplitDots b.1) e b.2 e1 he1 (pySplitDots_ne_nil b.1)
      · exact hlook b hb2
    · intro q hq
      rw [hpres q (fun x hx => hq x (List.mem_cons_of_mem a hx))]
      exact insertPath_lookup_other (pySplitDots a.1) e a.2 e1 q he1
        (hq a (List.mem_cons_self a rest)).1 (hq a (List.mem_cons_self a rest)).2

/-- C9: `config_builder` succeeds on argument lists whose dotted names
form a proper tree (no parsed name's split path is a prefix of another's —
argparse destinations are distinct, and the repo's CLI never declares a
name that is also a level of another), and stores every argument value at
the nested path obtained by splitting its name on `'.'`; a name without
dots splits to the singleton path, i.e. a top-level key under its own
name. -/
theorem config_builder_nests_dotted_args (args : List (String × PyVal))
    (hco : args.Pairwise (fun a b =>
      ¬ (pySplitDots a.1 <+: pySplitDots b.1) ∧ ¬ (pySplitDots b.1 <+: pySplitDots a.1))) :
    ∃ c, config_builder args = some c
    ∧ ∀ a ∈ args, lookupPath c (pySplitDots a.1) = some (.leaf a.2) := by
  obtain ⟨c, h1, h2, _⟩ := config_builder_go_spec args []
    (fun a _ p _ _ => by rw [isLeafAt, lookupPath_nil_entries]) hco
  exact ⟨c, h1, h2⟩

/-- C9, witness: two dotted arguments sharing the `machine` level plus one
dotless argument: `machine.podName` lands at `config["machine"]["podName"]`,
`machine.gpuCount` at `config["machine"]["gpuCount"]`, and `max_bid` at the
top level. -/
theorem config_builder_nests_dotted_args_witness :
    ∃ c, config_builder [("machine.podName", .str "mypod"),
        ("machine.gpuCount", .int 1), ("max_bid", .str "0.2")] = some c
    ∧ ∀ a ∈ [(("machine.podName" : String), PyVal.str "mypod"),
        ("machine.gpuCount", .int 1), ("max_bid", .str "0.2")],
        lookupPath c (pySplitDots a.1) = some (.leaf a.2) :=
  config_builder_nests_dotted_args
    [("machine.podName", .str "mypod"), ("machine.gpuCount", .int 1),
     ("max_bid", .str "0.2")] (by decide)

end RunPodPy
